import Mathlib

/-!
Verification of the krecord video recorder (`src/lib.rs`).

The development shallowly embeds the recorder: the pixel-buffer
normalizer `vflip` acts on flat byte buffers modelled as functions from
flat indices to byte values, and the stateful `Recorder` session is
modelled as a record of the struct's fields, with the external
multimedia toolkit (format probing, encoder, muxer, scaler) represented
by environments that supply the results of each foreign call.  The
operations `new_with_params`, `init`, `snap` and the drop handler are
translated from the source; externally visible effects are collected in
an action trace.
-/

set_option maxHeartbeats 1000000

/-- A flat byte buffer: the contents of a mutable byte slice, indexed by
flat offset. -/
def Buf : Type := Nat → Nat

/-- The slice operation `vec.swap(a, b)` on a flat buffer. -/
def bufSwap (v : Buf) (a b : Nat) : Buf :=
  fun k => if k = a then v b else if k = b then v a else v k

/-- `vflip` from `src/lib.rs` lines 443-450: for `j` in `0..height / 2`
and `i` in `0..width`, swap the bytes at flat indices
`(height - j - 1) * width + i` and `j * width + i`.  Here `width` is the
row stride in bytes and `height` the row count. -/
def vflip (v : Buf) (width height : Nat) : Buf :=
  (List.range (height / 2)).foldl
    (fun acc j =>
      (List.range width).foldl
        (fun acc2 i => bufSwap acc2 ((height - j - 1) * width + i) (j * width + i)) acc)
    v

/-- The inner loop of `vflip`, generalized: `m` swaps pairing `b + i`
with `a + i` for `i` in `0..m`. -/
def swapRun (v : Buf) (b a m : Nat) : Buf :=
  (List.range m).foldl (fun acc i => bufSwap acc (b + i) (a + i)) v

/-- The outer loop of `vflip`: the first `n` row swaps. -/
def flipRun (v : Buf) (w h n : Nat) : Buf :=
  (List.range n).foldl (fun acc j => swapRun acc ((h - j - 1) * w) (j * w) w) v

/-- Where a flat index is sent by the vertical flip: indices inside the
`w * h` window move to the mirrored row, the rest stay in place. -/
def mirrorIdx (w h k : Nat) : Nat := (h - 1 - k / w) * w + k % w

lemma vflip_eq_flipRun (v : Buf) (w h : Nat) : vflip v w h = flipRun v w h (h / 2) := rfl

lemma swapRun_zero (v : Buf) (b a : Nat) : swapRun v b a 0 = v := rfl

lemma swapRun_succ (v : Buf) (b a m : Nat) :
    swapRun v b a (m + 1) = bufSwap (swapRun v b a m) (b + m) (a + m) := by
  simp [swapRun, List.range_succ]

lemma flipRun_zero (v : Buf) (w h : Nat) : flipRun v w h 0 = v := rfl

lemma flipRun_succ (v : Buf) (w h n : Nat) :
    flipRun v w h (n + 1) = swapRun (flipRun v w h n) ((h - n - 1) * w) (n * w) w := by
  simp [flipRun, List.range_succ]

lemma cell_div {w j i : Nat} (hi : i < w) : (j * w + i) / w = j := by
  have hw : 0 < w := Nat.lt_of_le_of_lt (Nat.zero_le i) hi
  rw [Nat.add_comm, Nat.add_mul_div_right i j hw, Nat.div_eq_of_lt hi, Nat.zero_add]

lemma cell_mod {w j i : Nat} (hi : i < w) : (j * w + i) % w = i := by
  rw [Nat.add_comm, Nat.add_mul_mod_self_right i j w, Nat.mod_eq_of_lt hi]

lemma mirrorIdx_cell (w h j i : Nat) (hi : i < w) :
    mirrorIdx w h (j * w + i) = (h - 1 - j) * w + i := by
  unfold mirrorIdx
  rw [cell_div hi, cell_mod hi]

lemma cell_lt (w h j i : Nat) (hj : j < h) (hi : i < w) : j * w + i < w * h := by
  have h1 : j * w + i < (j + 1) * w := by rw [Nat.succ_mul]; omega
  have h2 : (j + 1) * w ≤ h * w := Nat.mul_le_mul_right w hj
  have h3 : h * w = w * h := Nat.mul_comm h w
  omega

/-- Pointwise description of a run of disjoint swaps: indices in
`[a, a + m)` read from the `b` block, indices in `[b, b + m)` read from
the `a` block, everything else is untouched. -/
lemma swapRun_apply (b a w : Nat) (hab : a + w ≤ b ∨ b + w ≤ a) :
    ∀ m, m ≤ w → ∀ (v : Buf) (k : Nat),
      swapRun v b a m k =
        if a ≤ k ∧ k < a + m then v (b + (k - a))
        else if b ≤ k ∧ k < b + m then v (a + (k - b))
        else v k := by
  intro m
  induction m with
  | zero =>
      intro _ v k
      rw [if_neg (by omega), if_neg (by omega)]
      rfl
  | succ m ih =>
      intro hm v k
      have ihm := ih (by omega)
      rw [swapRun_succ]
      simp only [bufSwap, ihm]
      split_ifs <;> first
        | rfl
        | (congr 1; omega)

/-- Pointwise description of the first `n` row swaps of the flip: rows
`0..n` and rows `h - n..h` are mirrored, everything else is untouched. -/
lemma flipRun_spec (v : Buf) (w h : Nat) :
    ∀ n, n ≤ h / 2 →
      (∀ j i, i < w → j < n → flipRun v w h n (j * w + i) = v ((h - 1 - j) * w + i)) ∧
      (∀ j i, i < w → h - n ≤ j → j < h →
        flipRun v w h n (j * w + i) = v ((h - 1 - j) * w + i)) ∧
      (∀ k, ((n * w ≤ k ∧ k < (h - n) * w) ∨ h * w ≤ k) → flipRun v w h n k = v k) := by
  intro n
  induction n with
  | zero =>
      refine fun _ => ⟨fun j i _ hj => absurd hj (Nat.not_lt_zero j), fun j i _ hj1 hj2 => ?_,
        fun k _ => rfl⟩
      omega
  | succ n ih =>
      intro hn
      obtain ⟨IH1, IH2, IH3⟩ := ih (by omega)
      have hh : 2 * (n + 1) ≤ h := by omega
      have e1 : (n + 1) * w = n * w + w := Nat.succ_mul n w
      have e2 : (h - n) * w = (h - n - 1) * w + w := by
        have e : h - n = (h - n - 1) + 1 := by omega
        rw [e, Nat.add_sub_cancel, Nat.succ_mul]
      have l1 : (n + 1) * w ≤ (h - n - 1) * w := Nat.mul_le_mul_right w (by omega)
      have l2 : (h - n) * w ≤ h * w := Nat.mul_le_mul_right w (by omega)
      have hab : n * w + w ≤ (h - n - 1) * w ∨ (h - n - 1) * w + w ≤ n * w := by omega
      have hrun := swapRun_apply ((h - n - 1) * w) (n * w) w hab w (Nat.le_refl w)
        (flipRun v w h n)
      rw [flipRun_succ]
      refine ⟨?_, ?_, ?_⟩
      · intro j i hi hj
        rw [hrun]
        by_cases hjn : j = n
        · subst hjn
          rw [if_pos (by omega)]
          have harg : (h - j - 1) * w + (j * w + i - j * w) = (h - j - 1) * w + i := by omega
          rw [harg, IH3 ((h - j - 1) * w + i) (Or.inl (by omega))]
          have hrow : h - 1 - j = h - j - 1 := by omega
          rw [hrow]
        · have hjlt : j < n := by omega
          have hup : (j + 1) * w ≤ n * w := Nat.mul_le_mul_right w (by omega)
          have hcell : j * w + i < (j + 1) * w := by rw [Nat.succ_mul]; omega
          rw [if_neg (by omega), if_neg (by omega)]
          exact IH1 j i hi hjlt
      · intro j i hi hj1 hj2
        by_cases hjn : j = h - n - 1
        · subst hjn
          rw [hrun, if_neg (by omega), if_pos (by omega)]
          have harg : n * w + ((h - n - 1) * w + i - (h - n - 1) * w) = n * w + i := by omega
          rw [harg, IH3 (n * w + i) (Or.inl (by omega))]
          have hrow : h - 1 - (h - n - 1) = n := by omega
          rw [hrow]
        · have hjge : h - n ≤ j := by omega
          have hdown : (h - n) * w ≤ j * w := Nat.mul_le_mul_right w (by omega)
          have hup : (j + 1) * w ≤ h * w := Nat.mul_le_mul_right w (by omega)
          have hcell : j * w + i < (j + 1) * w := by rw [Nat.succ_mul]; omega
          rw [hrun, if_neg (by omega), if_neg (by omega)]
          exact IH2 j i hi hjge hj2
      · intro k hk
        have e3 : h - (n + 1) = h - n - 1 := by omega
        rw [e3] at hk
        rw [hrun, if_neg (by omega), if_neg (by omega)]
        exact IH3 k (by omega)

/-- Master pointwise description of `vflip`: inside the `w * h` window
every byte is read from the vertically mirrored row; outside it the
buffer is untouched. -/
lemma vflip_apply (v : Buf) (w h k : Nat) :
    vflip v w h k = if k < w * h then v (mirrorIdx w h k) else v k := by
  obtain ⟨S1, S2, S3⟩ := flipRun_spec v w h (h / 2) (Nat.le_refl (h / 2))
  rw [vflip_eq_flipRun]
  by_cases hk : k < w * h
  · rw [if_pos hk]
    have hw : 0 < w := by
      rcases Nat.eq_zero_or_pos w with hw0 | hw0
      · subst hw0; simp at hk
      · exact hw0
    have hi : k % w < w := Nat.mod_lt k hw
    have hj : k / w < h := Nat.div_lt_of_lt_mul hk
    have hcell : (k / w) * w + k % w = k := by
      rw [Nat.mul_comm]
      exact Nat.div_add_mod k w
    rw [← hcell, mirrorIdx_cell w h (k / w) (k % w) hi]
    rcases Nat.lt_or_ge (k / w) (h / 2) with hlow | hge
    · exact S1 (k / w) (k % w) hi hlow
    · rcases Nat.lt_or_ge (k / w) (h - h / 2) with hmid | hhigh
      · -- middle row of an odd height: the row is its own mirror
        have hrow : h - 1 - k / w = k / w := by omega
        rw [hrow]
        refine S3 ((k / w) * w + k % w) (Or.inl ⟨?_, ?_⟩)
        · have := Nat.mul_le_mul_right w (show h / 2 ≤ k / w by omega)
          omega
        · have e : (h - h / 2) = k / w + 1 := by omega
          rw [e, Nat.succ_mul]
          omega
      · exact S2 (k / w) (k % w) hi (by omega) hj
  · rw [if_neg hk]
    refine S3 k (Or.inr ?_)
    rw [Nat.mul_comm h w]
    omega

/-!
## The recorder session

The `Recorder` struct and its operations, translated from `src/lib.rs`.
Foreign calls (libavformat, libavcodec, swscale, the kiss3d window) are
modelled by environment records holding the value each call returns;
opaque toolkit handles are tagged naturals, nullable pointers are
`Option`s.  A fatal `panic!` is an `Except.error` carrying the panic
message, and externally visible toolkit calls are collected in a trace
of `RecAction`s.
-/

/-- `AV_CODEC_ID_NONE` (value 0 in libavcodec). -/
def AV_CODEC_ID_NONE : Int := 0

/-- `AV_CODEC_ID_MPEG1VIDEO` (value 1 in libavcodec). -/
def AV_CODEC_ID_MPEG1VIDEO : Int := 1

/-- `avutil::PIX_FMT_YUV420P` (value 0 in libavutil). -/
def PIX_FMT_YUV420P : Int := 0

/-- `av_rescale_q(a, bq, cq)`: rescale `a` from time base `bq` to time
base `cq` as `a * bq.num * cq.den / (bq.den * cq.num)` with rounding to
nearest, modelled for the nonnegative operands used by the recorder. -/
def av_rescale_q (a : Nat) (bq cq : Nat × Nat) : Nat :=
  (a * (bq.1 * cq.2) + (bq.2 * cq.1) / 2) / (bq.2 * cq.1)

/-- The fields of the destination / temporary `AVFrame` the recorder
reads or writes. -/
structure FrameData where
  pts : Nat
  format : Int
  width : Nat
  height : Nat
deriving DecidableEq

/-- The fields of the `AVCodecContext` the recorder assigns in `init`. -/
structure CodecCtx where
  bit_rate : Nat
  width : Nat
  height : Nat
  time_base : Nat × Nat
  gop_size : Nat
  max_b_frames : Nat
  pix_fmt : Int
  codec_id : Int
  mb_decision : Nat
deriving DecidableEq

/-- The fields of the `AVStream` the recorder assigns in `init`. -/
structure VideoStream where
  id : Int
  time_base : Nat × Nat
deriving DecidableEq

/-- The `Recorder` struct of `src/lib.rs`. -/
structure Recorder where
  tmp_frame_buf : Buf
  frame_buf : Buf
  curr_frame_index : Nat
  initialized : Bool
  bit_rate : Nat
  width : Nat
  height : Nat
  time_base : Nat × Nat
  gop_size : Nat
  max_b_frames : Nat
  pix_fmt : Int
  tmp_frame : Option FrameData
  frame : Option FrameData
  context : Option CodecCtx
  format_context : Option Nat
  video_st : Option VideoStream
  scale_context : Option Nat
  path : String

/-- Externally visible toolkit calls made by `snap` and by the drop
handler.  `av_write_trailer` has a constructor so that its absence from
every trace is expressible. -/
inductive RecAction where
  | windowSnap : RecAction
  | swsScaleCall : Option Nat → RecAction
  | encodeFrame : Nat → RecAction
  | encodeNull : RecAction
  | interleavedWrite : RecAction
  | freePacket : RecAction
  | closeCodec : RecAction
  | freeContext : RecAction
  | freeFrame : RecAction
  | freeTmpFrame : RecAction
  | writeTrailer : RecAction
deriving DecidableEq

/-- Results of the foreign calls made during `init`. -/
structure InitEnv where
  /-- `avformat_alloc_output_context2` guessing the container from the
  path (`None` models a null context: the guess failed). -/
  allocGuess : Option Nat
  /-- `avformat_alloc_output_context2` with the explicit `mpeg` format. -/
  allocMpeg : Option Nat
  /-- `(*oformat).video_codec` of a given format context handle. -/
  videoCodecOf : Nat → Int
  /-- `avcodec_find_encoder` returned non-null. -/
  findEncoderOk : Bool
  /-- `avformat_new_stream` returned non-null. -/
  newStreamOk : Bool
  /-- `(*video_st).codec` was non-null. -/
  ctxOk : Bool
  /-- `sws_getContext` result stored during `init`. -/
  swsInit : Option Nat
  /-- `avcodec_open2` returned nonnegative. -/
  codecOpenOk : Bool
  /-- first `avcodec_alloc_frame` returned non-null. -/
  frameAllocOk : Bool
  /-- `avpicture_get_size` result. -/
  pictureSize : Nat
  /-- second `avcodec_alloc_frame` returned non-null. -/
  tmpFrameAllocOk : Bool
  /-- `avio_open` returned nonnegative. -/
  avioOpenOk : Bool
  /-- `avformat_write_header` returned nonnegative. -/
  writeHeaderOk : Bool

/-- Results of the foreign calls made during one `snap`. -/
structure SnapEnv where
  /-- environment for the lazy `init` call. -/
  initEnv : InitEnv
  /-- `window.width()`. -/
  winWidth : Nat
  /-- `window.height()`. -/
  winHeight : Nat
  /-- the RGB24 bytes `window.snap` writes into `tmp_frame_buf`. -/
  winBuf : Buf
  /-- `sws_getCachedContext` result (`None` models a null context). -/
  swsCached : Option Nat
  /-- contents of the destination buffer after `sws_scale`. -/
  scaled : Buf
  /-- return value of `avcodec_encode_video2`. -/
  encodeRet : Int
  /-- whether `got_output` was set (encoder produced a packet). -/
  gotOutput : Bool

/-- Results of the foreign calls made while dropping: the successive
`(ret, got_output)` answers of `avcodec_encode_video2` with a null
frame.  The drain loop stops at the first `got_output = false`. -/
structure DropEnv where
  drainResults : List (Int × Bool)

/-- `Recorder::new_with_params` (lines 105-149): fills defaults and
rounds width and height up to even values. -/
def Recorder.new_with_params (path : String) (width height : Nat)
    (bit_rate : Option Nat) (time_base : Option (Nat × Nat)) (gop_size : Option Nat)
    (max_b_frames : Option Nat) (pix_fmt : Option Int) : Recorder :=
  let bit_rate := bit_rate.getD 400000
  let time_base := time_base.getD (1, 60)
  let gop_size := gop_size.getD 10
  let max_b_frames := max_b_frames.getD 1
  let pix_fmt := pix_fmt.getD PIX_FMT_YUV420P
  let width := if width % 2 = 0 then width else width + 1
  let height := if height % 2 = 0 then height else height + 1
  { initialized := false
    curr_frame_index := 0
    bit_rate := bit_rate
    width := width
    height := height
    time_base := time_base
    gop_size := gop_size
    max_b_frames := max_b_frames
    pix_fmt := pix_fmt
    frame := none
    tmp_frame := none
    context := none
    scale_context := none
    format_context := none
    video_st := none
    path := path
    frame_buf := fun _ => 0
    tmp_frame_buf := fun _ => 0 }

/-- `Recorder::new` (lines 89-91). -/
def Recorder.new (path : String) (width height : Nat) : Recorder :=
  Recorder.new_with_params path width height none none none none none

/-- `Recorder::init` (lines 239-396).  Note that the source tests
`self.format_context.is_null()` — not the local `fmt` just filled by the
guessing call — before running the `mpeg` fallback call, and that the
fallback call overwrites `fmt` with its own result. -/
def Recorder.init (env : InitEnv) (s : Recorder) : Except String Recorder :=
  if s.initialized then Except.ok s else
  let fmt0 := env.allocGuess
  let fmt := if s.format_context = none then env.allocMpeg else fmt0
  match fmt with
  | none => Except.error "Unable to create the output context."
  | some f =>
    let vc := env.videoCodecOf f
    if vc = AV_CODEC_ID_NONE then
      Except.error "The selected output container does not support video encoding."
    else if !env.findEncoderOk then Except.error "Codec not found."
    else if !env.newStreamOk then Except.error "Failed to allocate the video stream."
    else if !env.ctxOk then Except.error "Could not allocate video codec context."
    else if !env.codecOpenOk then Except.error "Could not open the codec."
    else if !env.frameAllocOk then Except.error "Could not allocate the video frame."
    else if !env.tmpFrameAllocOk then Except.error "Could not allocate the video frame."
    else if !env.avioOpenOk then Except.error "Failed to open the output file."
    else if !env.writeHeaderOk then Except.error "Failed to open the output file."
    else Except.ok { s with
      format_context := some f
      video_st := some { id := 0, time_base := s.time_base }
      context := some
        { bit_rate := s.bit_rate
          width := s.width
          height := s.height
          time_base := s.time_base
          gop_size := s.gop_size
          max_b_frames := s.max_b_frames
          pix_fmt := s.pix_fmt
          codec_id := vc
          mb_decision := if vc = AV_CODEC_ID_MPEG1VIDEO then 2 else 0 }
      scale_context := env.swsInit
      frame := some { pts := 0, format := s.pix_fmt, width := s.width, height := s.height }
      tmp_frame := some { pts := 0, format := s.pix_fmt, width := 0, height := 0 }
      frame_buf := fun _ => 0
      initialized := true }

/-- `Recorder::snap` (lines 152-233): lazy `init`, capture, vertical
flip, pts advance, color conversion, encode, and the conditional
interleaved write. -/
def Recorder.snap (env : SnapEnv) (s0 : Recorder) : Except String (Recorder × List RecAction) :=
  match Recorder.init env.initEnv s0 with
  | Except.error msg => Except.error msg
  | Except.ok s =>
    match s.frame, s.context, s.video_st, s.tmp_frame with
    | some fr, some ctx, some st, some tf =>
      let ww := env.winWidth
      let wh := env.winHeight
      let newPts := fr.pts + av_rescale_q 1 ctx.time_base st.time_base
      let s' := { s with
        tmp_frame_buf := vflip env.winBuf (ww * 3) wh
        frame := some { fr with pts := newPts }
        curr_frame_index := s.curr_frame_index + 1
        tmp_frame := some { tf with width := ww, height := wh }
        scale_context := env.swsCached
        frame_buf := env.scaled }
      if env.encodeRet < 0 then Except.error "Error encoding frame."
      else if env.gotOutput then
        Except.ok (s', [RecAction.windowSnap, RecAction.swsScaleCall env.swsCached,
                        RecAction.encodeFrame newPts, RecAction.interleavedWrite, RecAction.freePacket])
      else
        Except.ok (s', [RecAction.windowSnap, RecAction.swsScaleCall env.swsCached,
                        RecAction.encodeFrame newPts])
    | _, _, _, _ => Except.error "null frame dereference"

/-- A sequence of `snap` calls, threading the state and collecting each
call's trace. -/
def Recorder.snapSeq : List SnapEnv → Recorder → Except String (Recorder × List (List RecAction))
  | [], s => Except.ok (s, [])
  | e :: es, s =>
    match Recorder.snap e s with
    | Except.error msg => Except.error msg
    | Except.ok (s', tr) =>
      match Recorder.snapSeq es s' with
      | Except.error msg => Except.error msg
      | Except.ok (sf, trs) => Except.ok (sf, tr :: trs)

/-- The drain loop of the drop handler (lines 402-429): submit a null
frame, panic on a negative return, write and free the packet while
`got_output` is set. -/
def drainLoop : List (Int × Bool) → Except String (List RecAction)
  | [] => Except.ok []
  | (ret, got) :: rest =>
    if ret < 0 then Except.error "Error encoding frame."
    else if got then
      match drainLoop rest with
      | Except.error msg => Except.error msg
      | Except.ok tr =>
        Except.ok (RecAction.encodeNull :: RecAction.interleavedWrite :: RecAction.freePacket :: tr)
    else Except.ok [RecAction.encodeNull]

/-- `impl Drop for Recorder` (lines 399-441): drain the encoder, then
close the codec and free the context and both frames — only when the
session was initialized. -/
def Recorder.drop (env : DropEnv) (s : Recorder) : Except String (List RecAction) :=
  if s.initialized then
    match drainLoop env.drainResults with
    | Except.error msg => Except.error msg
    | Except.ok tr =>
      Except.ok (tr ++ [RecAction.closeCodec, RecAction.freeContext, RecAction.freeFrame,
                        RecAction.freeTmpFrame])
  else Except.ok []

/-- The pts values of the frames a trace submits to the encoder. -/
def submittedPts (tr : List RecAction) : List Nat :=
  tr.filterMap (fun a => match a with | RecAction.encodeFrame p => some p | _ => none)

/-!
## Concrete sample states and environments

Used by the closed evaluation theorems and the witnesses.
-/

/-- An `init` environment in which every foreign call succeeds and the
path-based container guess succeeds with handle 10, while the `mpeg`
fallback allocation yields handle 20. -/
def guessEnv : InitEnv :=
  { allocGuess := some 10
    allocMpeg := some 20
    videoCodecOf := fun _ => 2
    findEncoderOk := true
    newStreamOk := true
    ctxOk := true
    swsInit := some 1
    codecOpenOk := true
    frameAllocOk := true
    pictureSize := 15606
    tmpFrameAllocOk := true
    avioOpenOk := true
    writeHeaderOk := true }

/-- A codec context as `init` builds it for the default parameters at
102 x 100. -/
def readyCtx : CodecCtx :=
  { bit_rate := 400000, width := 102, height := 100, time_base := (1, 60),
    gop_size := 10, max_b_frames := 1, pix_fmt := 0, codec_id := 2, mb_decision := 0 }

/-- A stream as `init` builds it. -/
def readyStream : VideoStream := { id := 0, time_base := (1, 60) }

/-- A destination frame as `init` builds it. -/
def readyFrame : FrameData := { pts := 0, format := 0, width := 102, height := 100 }

/-- An initialized recorder session. -/
def readyRec : Recorder :=
  { tmp_frame_buf := fun _ => 0
    frame_buf := fun _ => 0
    curr_frame_index := 0
    initialized := true
    bit_rate := 400000
    width := 102
    height := 100
    time_base := (1, 60)
    gop_size := 10
    max_b_frames := 1
    pix_fmt := 0
    tmp_frame := some readyFrame
    frame := some readyFrame
    context := some readyCtx
    format_context := some 20
    video_st := some readyStream
    scale_context := some 1
    path := "out.avi" }

/-- A snap environment in which the encoder accepts the frame and
produces a packet. -/
def readyEnv : SnapEnv :=
  { initEnv := guessEnv
    winWidth := 4
    winHeight := 2
    winBuf := fun _ => 0
    swsCached := some 5
    scaled := fun _ => 0
    encodeRet := 0
    gotOutput := true }

/-- A snap environment in which `sws_getCachedContext` returns a null
context and the encoder buffers the frame. -/
def nullScaleEnv : SnapEnv :=
  { initEnv := guessEnv
    winWidth := 101
    winHeight := 100
    winBuf := fun _ => 0
    swsCached := none
    scaled := fun _ => 0
    encodeRet := 0
    gotOutput := false }

/-!
## Lemmas about the session operations
-/

lemma av_rescale_q_self (tb : Nat × Nat) (h : 0 < tb.1 * tb.2) : av_rescale_q 1 tb tb = 1 := by
  unfold av_rescale_q
  have e : tb.1 * tb.2 = tb.2 * tb.1 := Nat.mul_comm _ _
  have hc : 0 < tb.2 * tb.1 := by omega
  have hlt : (tb.2 * tb.1) / 2 < tb.2 * tb.1 := Nat.div_lt_self hc (by omega)
  rw [Nat.one_mul, e, Nat.add_comm, Nat.add_div_right _ hc, Nat.div_eq_of_lt hlt]

lemma init_of_initialized (env : InitEnv) (s : Recorder) (h : s.initialized = true) :
    Recorder.init env s = Except.ok s := by
  simp [Recorder.init, h]

lemma init_dims (env : InitEnv) (s s' : Recorder) (h : Recorder.init env s = Except.ok s') :
    s'.width = s.width ∧ s'.height = s.height := by
  unfold Recorder.init at h
  repeat' (first | split at h | dsimp only at h)
  all_goals first
    | exact Except.noConfusion h
    | (injection h with h2
       subst h2
       exact ⟨rfl, rfl⟩)

lemma init_fresh_ok (env : InitEnv) (s : Recorder) (f : Nat)
    (h0 : s.initialized = false) (hfc : s.format_context = none)
    (hm : env.allocMpeg = some f) (hvc : env.videoCodecOf f ≠ AV_CODEC_ID_NONE)
    (hfe : env.findEncoderOk = true) (hns : env.newStreamOk = true) (hcx : env.ctxOk = true)
    (hco : env.codecOpenOk = true) (hfa : env.frameAllocOk = true)
    (hta : env.tmpFrameAllocOk = true) (hio : env.avioOpenOk = true)
    (hwh : env.writeHeaderOk = true) :
    Recorder.init env s = Except.ok { s with
      format_context := some f
      video_st := some { id := 0, time_base := s.time_base }
      context := some
        { bit_rate := s.bit_rate, width := s.width, height := s.height,
          time_base := s.time_base, gop_size := s.gop_size,
          max_b_frames := s.max_b_frames, pix_fmt := s.pix_fmt,
          codec_id := env.videoCodecOf f,
          mb_decision := if env.videoCodecOf f = AV_CODEC_ID_MPEG1VIDEO then 2 else 0 }
      scale_context := env.swsInit
      frame := some { pts := 0, format := s.pix_fmt, width := s.width, height := s.height }
      tmp_frame := some { pts := 0, format := s.pix_fmt, width := 0, height := 0 }
      frame_buf := fun _ => 0
      initialized := true } := by
  unfold Recorder.init
  rw [if_neg (by simp [h0])]
  dsimp only
  rw [if_pos hfc, hm]
  dsimp only
  rw [if_neg hvc, hfe, hns, hcx, hco, hfa, hta, hio, hwh]
  rfl

lemma snap_unfold (env : SnapEnv) (s : Recorder) (c : CodecCtx) (st : VideoStream)
    (fr tf : FrameData)
    (h1 : s.initialized = true) (hc : s.context = some c) (hs : s.video_st = some st)
    (hf : s.frame = some fr) (htf : s.tmp_frame = some tf) :
    Recorder.snap env s =
      (if env.encodeRet < 0 then Except.error "Error encoding frame."
       else if env.gotOutput then
         Except.ok ({ s with
             tmp_frame_buf := vflip env.winBuf (env.winWidth * 3) env.winHeight
             frame := some { fr with pts := fr.pts + av_rescale_q 1 c.time_base st.time_base }
             curr_frame_index := s.curr_frame_index + 1
             tmp_frame := some { tf with width := env.winWidth, height := env.winHeight }
             scale_context := env.swsCached
             frame_buf := env.scaled },
           [RecAction.windowSnap, RecAction.swsScaleCall env.swsCached,
            RecAction.encodeFrame (fr.pts + av_rescale_q 1 c.time_base st.time_base),
            RecAction.interleavedWrite, RecAction.freePacket])
       else
         Except.ok ({ s with
             tmp_frame_buf := vflip env.winBuf (env.winWidth * 3) env.winHeight
             frame := some { fr with pts := fr.pts + av_rescale_q 1 c.time_base st.time_base }
             curr_frame_index := s.curr_frame_index + 1
             tmp_frame := some { tf with width := env.winWidth, height := env.winHeight }
             scale_context := env.swsCached
             frame_buf := env.scaled },
           [RecAction.windowSnap, RecAction.swsScaleCall env.swsCached,
            RecAction.encodeFrame (fr.pts + av_rescale_q 1 c.time_base st.time_base)])) := by
  unfold Recorder.snap
  rw [init_of_initialized env.initEnv s h1]
  dsimp only
  rw [hf, hc, hs, htf]

lemma snap_dims (env : SnapEnv) (s s' : Recorder) (tr : List RecAction)
    (h : Recorder.snap env s = Except.ok (s', tr)) :
    s'.width = s.width ∧ s'.height = s.height := by
  unfold Recorder.snap at h
  cases hinit : Recorder.init env.initEnv s with
  | error msg => rw [hinit] at h; exact Except.noConfusion h
  | ok s1 =>
    rw [hinit] at h
    have hd := init_dims env.initEnv s s1 hinit
    dsimp only at h
    rcases hfr : s1.frame with _ | fr <;> rcases hc : s1.context with _ | c <;>
      rcases hs : s1.video_st with _ | st <;> rcases htf : s1.tmp_frame with _ | tf <;>
      rw [hfr, hc, hs, htf] at h <;> (try dsimp only at h) <;>
      first
        | exact Except.noConfusion h
        | (split at h
           next => exact Except.noConfusion h
           next =>
             split at h <;>
               (injection h with h2
                injection h2 with h3 h4
                subst h3
                exact ⟨hd.1, hd.2⟩))

lemma drainLoop_no_trailer :
    ∀ (rs : List (Int × Bool)) (tr : List RecAction),
      drainLoop rs = Except.ok tr → RecAction.writeTrailer ∉ tr := by
  intro rs
  induction rs with
  | nil =>
      intro tr h
      injection h with h2
      subst h2
      simp
  | cons p rest ih =>
      intro tr h
      obtain ⟨ret, got⟩ := p
      unfold drainLoop at h
      split at h
      · exact Except.noConfusion h
      · split at h
        · cases hrec : drainLoop rest with
          | error msg => rw [hrec] at h; exact Except.noConfusion h
          | ok tr0 =>
              rw [hrec] at h
              injection h with h2
              subst h2
              have := ih tr0 hrec
              simp_all
        · injection h with h2
          subst h2
          simp

lemma drainLoop_replicate (k : Nat) :
    drainLoop (List.replicate k ((0 : Int), true) ++ [((0 : Int), false)]) =
      Except.ok ((List.replicate k [RecAction.encodeNull, RecAction.interleavedWrite,
        RecAction.freePacket]).flatten ++ [RecAction.encodeNull]) := by
  induction k with
  | zero => rfl
  | succ k ih =>
      rw [List.replicate_succ, List.cons_append]
      unfold drainLoop
      rw [if_neg (by omega), if_pos rfl, ih]
      rw [List.replicate_succ, List.flatten_cons, List.append_assoc]
      rfl

lemma mem_submittedPts {p : Nat} {tr : List RecAction} (h : RecAction.encodeFrame p ∈ tr) :
    p ∈ submittedPts tr := by
  unfold submittedPts
  exact List.mem_filterMap.mpr ⟨_, h, rfl⟩

lemma snapSeq_spec (envs : List SnapEnv) :
    ∀ (s : Recorder) (c : CodecCtx) (st : VideoStream) (fr tf : FrameData),
      s.initialized = true → s.context = some c → s.video_st = some st →
      s.frame = some fr → s.tmp_frame = some tf →
      c.time_base = st.time_base → 0 < c.time_base.1 * c.time_base.2 →
      (∀ e ∈ envs, 0 ≤ e.encodeRet) →
      ∃ sf traces, Recorder.snapSeq envs s = Except.ok (sf, traces) ∧
        traces.map submittedPts = (List.range envs.length).map (fun m => [fr.pts + (m + 1)]) ∧
        ∃ frf, sf.frame = some frf ∧ frf.pts = fr.pts + envs.length := by
  induction envs with
  | nil =>
      intro s c st fr tf h1 hc hs hf htf htb hpos hres
      exact ⟨s, [], rfl, by simp, fr, hf, by simp⟩
  | cons e es ih =>
      intro s c st fr tf h1 hc hs hf htf htb hpos hres
      have henc : ¬ e.encodeRet < 0 := by
        have := hres e (List.mem_cons_self e es)
        omega
      have hresc : av_rescale_q 1 c.time_base st.time_base = 1 := by
        rw [← htb]
        exact av_rescale_q_self c.time_base hpos
      have hstep := snap_unfold e s c st fr tf h1 hc hs hf htf
      rw [if_neg henc] at hstep
      obtain ⟨sf, traces, hseq, hmap, frf, hff, hfp⟩ :=
        ih { s with
              tmp_frame_buf := vflip e.winBuf (e.winWidth * 3) e.winHeight
              frame := some { fr with pts := fr.pts + av_rescale_q 1 c.time_base st.time_base }
              curr_frame_index := s.curr_frame_index + 1
              tmp_frame := some { tf with width := e.winWidth, height := e.winHeight }
              scale_context := e.swsCached
              frame_buf := e.scaled }
          c st { fr with pts := fr.pts + av_rescale_q 1 c.time_base st.time_base }
          { tf with width := e.winWidth, height := e.winHeight }
          h1 hc hs rfl rfl htb hpos
          (fun e' he' => hres e' (List.mem_cons_of_mem e he'))
      cases hgot : e.gotOutput with
      | true =>
          rw [if_pos (by rw [hgot])] at hstep
          refine ⟨sf, [RecAction.windowSnap, RecAction.swsScaleCall e.swsCached,
              RecAction.encodeFrame (fr.pts + av_rescale_q 1 c.time_base st.time_base),
              RecAction.interleavedWrite, RecAction.freePacket] :: traces, ?_, ?_, frf, hff, ?_⟩
          · unfold Recorder.snapSeq
            rw [hstep]
            dsimp only
            rw [hseq]
          · rw [List.map_cons, hmap]
            simp only [List.length_cons, List.range_succ_eq_map, List.map_cons, List.map_map]
            congr 1
            · simp [submittedPts, hresc]
            · apply List.map_congr_left
              intro m _
              simp only [Function.comp_apply, hresc, List.cons.injEq, and_true]
              omega
          · rw [hfp, hresc]
            simp only [List.length_cons]
            omega
      | false =>
          rw [if_neg (by rw [hgot]; simp)] at hstep
          refine ⟨sf, [RecAction.windowSnap, RecAction.swsScaleCall e.swsCached,
              RecAction.encodeFrame (fr.pts + av_rescale_q 1 c.time_base st.time_base)] ::
              traces, ?_, ?_, frf, hff, ?_⟩
          · unfold Recorder.snapSeq
            rw [hstep]
            dsimp only
            rw [hseq]
          · rw [List.map_cons, hmap]
            simp only [List.length_cons, List.range_succ_eq_map, List.map_cons, List.map_map]
            congr 1
            · simp [submittedPts, hresc]
            · apply List.map_congr_left
              intro m _
              simp only [Function.comp_apply, hresc, List.cons.injEq, and_true]
              omega
          · rw [hfp, hresc]
            simp only [List.length_cons]
            omega

lemma vflip_cell (v : Buf) (w h j i : Nat) (hj : j < h) (hi : i < w) :
    vflip v w h (j * w + i) = v ((h - 1 - j) * w + i) := by
  rw [vflip_apply, if_pos (cell_lt w h j i hj hi), mirrorIdx_cell w h j i hi]

lemma vflip_out (v : Buf) (w h k : Nat) (hk : w * h ≤ k) : vflip v w h k = v k := by
  rw [vflip_apply, if_neg (by omega)]

/-!
## Claim theorems
-/

/-- C8: the vertical normalizer reverses the vertical order of rows in
the buffer: for every row `j < h` and column `i < w` (stride `w`, row
count `h`), the byte at `j * w + i` after `vflip` is the byte that was
at row `h - 1 - j`, same column; for an odd row count the middle row is
left untouched; bytes beyond the `w * h` window are untouched. -/
theorem vflip_reverses_rows (v : Buf) (w h j i : Nat) (hj : j < h) (hi : i < w) :
    vflip v w h (j * w + i) = v ((h - 1 - j) * w + i) ∧
    (h % 2 = 1 → j = (h - 1) / 2 → vflip v w h (j * w + i) = v (j * w + i)) ∧
    ∀ k, w * h ≤ k → vflip v w h k = v k := by
  have hmain := vflip_cell v w h j i hj hi
  refine ⟨hmain, ?_, fun k hk => vflip_out v w h k hk⟩
  intro ho hj2
  rw [hmain]
  have hrow : h - 1 - j = j := by omega
  rw [hrow]

/-- Witness for `vflip_reverses_rows` on a concrete 3-byte-stride,
5-row buffer at the middle row. -/
theorem vflip_reverses_rows_witness :
    vflip (fun k => k) 3 5 (2 * 3 + 1) = (fun k : Nat => k) ((5 - 1 - 2) * 3 + 1) ∧
    (5 % 2 = 1 → 2 = (5 - 1) / 2 → vflip (fun k => k) 3 5 (2 * 3 + 1) =
      (fun k : Nat => k) (2 * 3 + 1)) ∧
    ∀ k, 3 * 5 ≤ k → vflip (fun k => k) 3 5 k = (fun k : Nat => k) k :=
  vflip_reverses_rows (fun k => k) 3 5 2 1 (by decide) (by decide)

/-- C9: the vertical normalizer is an involution: applying `vflip`
twice with the same stride and row count returns the buffer to its
exact original contents. -/
theorem vflip_involutive (v : Buf) (w h : Nat) : vflip (vflip v w h) w h = v := by
  funext k
  by_cases hk : k < w * h
  · have hw : 0 < w := by
      rcases Nat.eq_zero_or_pos w with hw0 | hw0
      · subst hw0; simp at hk
      · exact hw0
    have hi : k % w < w := Nat.mod_lt k hw
    have hj : k / w < h := Nat.div_lt_of_lt_mul hk
    have hdm : (k / w) * w + k % w = k := by
      rw [Nat.mul_comm]
      exact Nat.div_add_mod k w
    obtain ⟨j, i, hj2, hi2, rfl⟩ : ∃ j i, j < h ∧ i < w ∧ j * w + i = k :=
      ⟨k / w, k % w, hj, hi, hdm⟩
    rw [vflip_cell (vflip v w h) w h j i hj2 hi2]
    have hmj : h - 1 - j < h := by omega
    rw [vflip_cell v w h (h - 1 - j) i hmj hi2]
    have hrow : h - 1 - (h - 1 - j) = j := by omega
    rw [hrow]
  · rw [vflip_out (vflip v w h) w h k (by omega), vflip_out v w h k (by omega)]

/-- C7: construction rounds an odd width or height up by one to the
nearest even value and keeps even dimensions unchanged, and the stored
dimensions are never changed afterwards by `init` or `snap`. -/
theorem dims_even_rounding_and_immutable (path : String) (w h : Nat) (b : Option Nat)
    (tb : Option (Nat × Nat)) (g mb : Option Nat) (pf : Option Int) :
    (Recorder.new_with_params path w h b tb g mb pf).width =
      (if w % 2 = 0 then w else w + 1) ∧
    (Recorder.new_with_params path w h b tb g mb pf).height =
      (if h % 2 = 0 then h else h + 1) ∧
    (∀ env s s', Recorder.init env s = Except.ok s' →
      s'.width = s.width ∧ s'.height = s.height) ∧
    (∀ env s s' tr, Recorder.snap env s = Except.ok (s', tr) →
      s'.width = s.width ∧ s'.height = s.height) :=
  ⟨rfl, rfl, fun env s s' hok => init_dims env s s' hok,
    fun env s s' tr hok => snap_dims env s s' tr hok⟩

/-- Witness for `dims_even_rounding_and_immutable`: a 101 x 100 session
stores 102 x 100. -/
theorem dims_even_rounding_and_immutable_witness :
    (Recorder.new_with_params "out.avi" 101 100 none none none none none).width = 102 ∧
    (Recorder.new_with_params "out.avi" 101 100 none none none none none).height = 100 := by
  have T := dims_even_rounding_and_immutable "out.avi" 101 100 none none none none none
  exact ⟨by rw [T.1]; decide, by rw [T.2.1]; decide⟩

/-- C1: under the invariant established by `init` — the stream time
base equals the encoder context time base and is positive — a
successful `snap` advances the frame pts by exactly the rescaling of
one encoder-time-base tick into the stream time base, that advance
equals one, the advanced pts is attached to the frame submitted to the
encoder, and the invariant is preserved; hence across successive `snap`
calls the submitted pts are strictly increasing with no duplicates and
no gaps. -/
theorem snap_pts_strict_advance (env : SnapEnv) (s : Recorder) (c : CodecCtx)
    (st : VideoStream) (fr tf : FrameData)
    (h1 : s.initialized = true) (hc : s.context = some c) (hs : s.video_st = some st)
    (hf : s.frame = some fr) (htf : s.tmp_frame = some tf)
    (htb : c.time_base = st.time_base) (hpos : 0 < c.time_base.1 * c.time_base.2)
    (henc : 0 ≤ env.encodeRet) :
    ∃ s' tr, Recorder.snap env s = Except.ok (s', tr) ∧
      (∃ fr', s'.frame = some fr' ∧
        fr'.pts = fr.pts + av_rescale_q 1 c.time_base st.time_base ∧
        av_rescale_q 1 c.time_base st.time_base = 1 ∧
        fr.pts < fr'.pts ∧ RecAction.encodeFrame fr'.pts ∈ tr) ∧
      s'.initialized = true ∧ s'.context = some c ∧ s'.video_st = some st := by
  have hresc : av_rescale_q 1 c.time_base st.time_base = 1 := by
    rw [← htb]
    exact av_rescale_q_self c.time_base hpos
  have hstep := snap_unfold env s c st fr tf h1 hc hs hf htf
  rw [if_neg (by omega)] at hstep
  cases hgot : env.gotOutput with
  | true =>
      rw [if_pos (by rw [hgot])] at hstep
      refine ⟨_, _, hstep, ⟨_, rfl, rfl, hresc, ?_, ?_⟩, h1, hc, hs⟩
      · show fr.pts < fr.pts + av_rescale_q 1 c.time_base st.time_base
        rw [hresc]
        omega
      · simp
  | false =>
      rw [if_neg (by rw [hgot]; simp)] at hstep
      refine ⟨_, _, hstep, ⟨_, rfl, rfl, hresc, ?_, ?_⟩, h1, hc, hs⟩
      · show fr.pts < fr.pts + av_rescale_q 1 c.time_base st.time_base
        rw [hresc]
        omega
      · simp

/-- Witness for `snap_pts_strict_advance` on a concrete ready session. -/
theorem snap_pts_strict_advance_witness :
    ∃ s' tr, Recorder.snap readyEnv readyRec = Except.ok (s', tr) ∧
      (∃ fr', s'.frame = some fr' ∧
        fr'.pts = readyFrame.pts + av_rescale_q 1 readyCtx.time_base readyStream.time_base ∧
        av_rescale_q 1 readyCtx.time_base readyStream.time_base = 1 ∧
        readyFrame.pts < fr'.pts ∧ RecAction.encodeFrame fr'.pts ∈ tr) ∧
      s'.initialized = true ∧ s'.context = some readyCtx ∧ s'.video_st = some readyStream :=
  snap_pts_strict_advance readyEnv readyRec readyCtx readyStream readyFrame readyFrame
    rfl rfl rfl rfl rfl rfl (by decide) (by decide)

/-- C6: in `snap`, a negative return from the encoder submission is
fatal; when the encoder produces no packet the call completes normally
with no interleaved write and no packet free; when a packet is produced
it is written via the interleaved-write path and then freed, in that
order at the end of the call's actions. -/
theorem snap_encode_error_handling (env : SnapEnv) (s : Recorder) (c : CodecCtx)
    (st : VideoStream) (fr tf : FrameData)
    (h1 : s.initialized = true) (hc : s.context = some c) (hs : s.video_st = some st)
    (hf : s.frame = some fr) (htf : s.tmp_frame = some tf) :
    (env.encodeRet < 0 → Recorder.snap env s = Except.error "Error encoding frame.") ∧
    (0 ≤ env.encodeRet → env.gotOutput = false →
      ∃ s' tr, Recorder.snap env s = Except.ok (s', tr) ∧
        RecAction.interleavedWrite ∉ tr ∧ RecAction.freePacket ∉ tr) ∧
    (0 ≤ env.encodeRet → env.gotOutput = true →
      ∃ s' tr0, Recorder.snap env s = Except.ok (s',
        tr0 ++ [RecAction.interleavedWrite, RecAction.freePacket])) := by
  have hstep := snap_unfold env s c st fr tf h1 hc hs hf htf
  refine ⟨?_, ?_, ?_⟩
  · intro hneg
    rw [hstep, if_pos hneg]
  · intro hge hgot
    rw [if_neg (by omega), if_neg (by rw [hgot]; simp)] at hstep
    refine ⟨_, _, hstep, by simp, by simp⟩
  · intro hge hgot
    rw [if_neg (by omega), if_pos (by rw [hgot])] at hstep
    exact ⟨_, [RecAction.windowSnap, RecAction.swsScaleCall env.swsCached,
      RecAction.encodeFrame (fr.pts + av_rescale_q 1 c.time_base st.time_base)], hstep⟩

/-- Witness for `snap_encode_error_handling`: a concrete capture in
which the encoder produces a packet. -/
theorem snap_encode_error_handling_witness :
    ∃ s' tr0, Recorder.snap readyEnv readyRec = Except.ok (s',
      tr0 ++ [RecAction.interleavedWrite, RecAction.freePacket]) :=
  (snap_encode_error_handling readyEnv readyRec readyCtx readyStream readyFrame readyFrame
    rfl rfl rfl rfl rfl).2.2 (by decide) rfl

/-- C2: dropping an initialized session drains the encoder — one null
submission per packet the encoder still holds, each packet written then
freed, plus a final null submission reporting no further output — and
then closes the codec and frees the encoder context and both frames;
dropping a session that was never initialized performs no drain and
frees nothing. -/
theorem drop_drain_spec (s : Recorder) (k : Nat) :
    (s.initialized = true →
      Recorder.drop
          { drainResults := List.replicate k ((0 : Int), true) ++ [((0 : Int), false)] } s =
        Except.ok ((List.replicate k [RecAction.encodeNull, RecAction.interleavedWrite,
            RecAction.freePacket]).flatten ++ [RecAction.encodeNull] ++
          [RecAction.closeCodec, RecAction.freeContext, RecAction.freeFrame,
            RecAction.freeTmpFrame])) ∧
    (s.initialized = false → ∀ env, Recorder.drop env s = Except.ok []) := by
  constructor
  · intro h1
    unfold Recorder.drop
    rw [if_pos h1, drainLoop_replicate k]
  · intro h0 env
    unfold Recorder.drop
    rw [if_neg (by simp [h0])]

/-- Witness for `drop_drain_spec`: an initialized session with two
pending packets, and a fresh uninitialized session. -/
theorem drop_drain_spec_witness :
    Recorder.drop
        { drainResults := List.replicate 2 ((0 : Int), true) ++ [((0 : Int), false)] }
        readyRec =
      Except.ok ((List.replicate 2 [RecAction.encodeNull, RecAction.interleavedWrite,
          RecAction.freePacket]).flatten ++ [RecAction.encodeNull] ++
        [RecAction.closeCodec, RecAction.freeContext, RecAction.freeFrame,
          RecAction.freeTmpFrame]) ∧
    Recorder.drop { drainResults := [] } (Recorder.new "out.avi" 100 100) = Except.ok [] :=
  ⟨(drop_drain_spec readyRec 2).1 rfl,
   (drop_drain_spec (Recorder.new "out.avi" 100 100) 0).2 rfl { drainResults := [] }⟩

/-- C3 (code bug): the drop handler never writes the container trailer:
no action trace it can produce contains the `av_write_trailer` call,
although the spec says proper disposal terminates the output file with
a complete trailer after draining the encoder. -/
theorem drop_never_writes_trailer (env : DropEnv) (s : Recorder) (tr : List RecAction)
    (h : Recorder.drop env s = Except.ok tr) : RecAction.writeTrailer ∉ tr := by
  unfold Recorder.drop at h
  split at h
  · cases hrec : drainLoop env.drainResults with
    | error msg => rw [hrec] at h; exact Except.noConfusion h
    | ok tr0 =>
        rw [hrec] at h
        dsimp only at h
        injection h with h2
        subst h2
        have h3 := drainLoop_no_trailer env.drainResults tr0 hrec
        simp [List.mem_append, h3]
  · injection h with h2
    subst h2
    simp

/-- Witness for `drop_never_writes_trailer` on a concrete drop of an
initialized session. -/
theorem drop_never_writes_trailer_witness :
    RecAction.writeTrailer ∉ ([RecAction.encodeNull] ++ [RecAction.closeCodec,
      RecAction.freeContext, RecAction.freeFrame, RecAction.freeTmpFrame]) :=
  drop_never_writes_trailer { drainResults := [((0 : Int), false)] } readyRec _ rfl

/-- C4 (code bug): on a fresh session whose path-based container probe
succeeds (handle 10), `init` still replaces the probed format with the
`mpeg` fallback (handle 20), because the code tests
`self.format_context` — still null at that point — instead of the local
`fmt` the probe just filled; the fallback is not limited to failed
probes. -/
theorem init_always_takes_mpeg_fallback :
    guessEnv.allocGuess = some 10 ∧
    ∃ s', Recorder.init guessEnv (Recorder.new "out.avi" 100 100) = Except.ok s' ∧
      s'.format_context = guessEnv.allocMpeg ∧ s'.format_context ≠ guessEnv.allocGuess := by
  refine ⟨rfl, _, rfl, rfl, ?_⟩
  decide

/-- C5 (code bug): when `sws_getCachedContext` returns a null context
during a capture, `snap` does not abort: it stores the null context,
still passes it to `sws_scale`, and completes normally. -/
theorem snap_continues_on_null_scale_context :
    ∃ p, Recorder.snap nullScaleEnv readyRec = Except.ok p ∧
      p.1.scale_context = none ∧ RecAction.swsScaleCall none ∈ p.2 := by
  refine ⟨_, rfl, rfl, ?_⟩
  decide

/-- C10: a successful `init` on a fresh session sets the stream time
base equal to the encoder context time base and the frame pts to 0, and
every `snap` advances the pts before submitting the frame; hence over
any run of successful `snap` calls the m-th call (counting from 1)
submits exactly one frame, with pts = m, and no frame is ever submitted
with pts 0. -/
theorem init_snap_pts_sequence (env : InitEnv) (s : Recorder) (f : Nat)
    (envs : List SnapEnv)
    (h0 : s.initialized = false) (hfc : s.format_context = none)
    (hpos : 0 < s.time_base.1 * s.time_base.2)
    (hm : env.allocMpeg = some f) (hvc : env.videoCodecOf f ≠ AV_CODEC_ID_NONE)
    (hfe : env.findEncoderOk = true) (hns : env.newStreamOk = true) (hcx : env.ctxOk = true)
    (hco : env.codecOpenOk = true) (hfa : env.frameAllocOk = true)
    (hta : env.tmpFrameAllocOk = true) (hio : env.avioOpenOk = true)
    (hwh : env.writeHeaderOk = true)
    (hres : ∀ e ∈ envs, 0 ≤ e.encodeRet) :
    ∃ s0, Recorder.init env s = Except.ok s0 ∧
      (∃ c stm, s0.context = some c ∧ s0.video_st = some stm ∧
        stm.time_base = c.time_base) ∧
      (∃ fr0, s0.frame = some fr0 ∧ fr0.pts = 0) ∧
      ∃ sf traces, Recorder.snapSeq envs s0 = Except.ok (sf, traces) ∧
        traces.map submittedPts = (List.range envs.length).map (fun m => [m + 1]) ∧
        ∀ tr ∈ traces, RecAction.encodeFrame 0 ∉ tr := by
  have hinit := init_fresh_ok env s f h0 hfc hm hvc hfe hns hcx hco hfa hta hio hwh
  refine ⟨_, hinit, ⟨_, _, rfl, rfl, rfl⟩, ⟨_, rfl, rfl⟩, ?_⟩
  obtain ⟨sf, traces, hseq, hmap, frf, hff, hfp⟩ :=
    snapSeq_spec envs
      { s with
        format_context := some f
        video_st := some { id := 0, time_base := s.time_base }
        context := some
          { bit_rate := s.bit_rate, width := s.width, height := s.height,
            time_base := s.time_base, gop_size := s.gop_size,
            max_b_frames := s.max_b_frames, pix_fmt := s.pix_fmt,
            codec_id := env.videoCodecOf f,
            mb_decision := if env.videoCodecOf f = AV_CODEC_ID_MPEG1VIDEO then 2 else 0 }
        scale_context := env.swsInit
        frame := some { pts := 0, format := s.pix_fmt, width := s.width, height := s.height }
        tmp_frame := some { pts := 0, format := s.pix_fmt, width := 0, height := 0 }
        frame_buf := fun _ => 0
        initialized := true }
      { bit_rate := s.bit_rate, width := s.width, height := s.height,
        time_base := s.time_base, gop_size := s.gop_size,
        max_b_frames := s.max_b_frames, pix_fmt := s.pix_fmt,
        codec_id := env.videoCodecOf f,
        mb_decision := if env.videoCodecOf f = AV_CODEC_ID_MPEG1VIDEO then 2 else 0 }
      { id := 0, time_base := s.time_base }
      { pts := 0, format := s.pix_fmt, width := s.width, height := s.height }
      { pts := 0, format := s.pix_fmt, width := 0, height := 0 }
      rfl rfl rfl rfl rfl rfl hpos hres
  have hmap2 : traces.map submittedPts =
      (List.range envs.length).map (fun m => [m + 1]) := by
    rw [hmap]
    apply List.map_congr_left
    intro m _
    simp
  refine ⟨sf, traces, hseq, hmap2, ?_⟩
  intro tr htr hmem
  have hp : (0 : Nat) ∈ submittedPts tr := mem_submittedPts hmem
  have hmem2 : submittedPts tr ∈ traces.map submittedPts :=
    List.mem_map_of_mem _ htr
  rw [hmap2] at hmem2
  obtain ⟨m, _, hme⟩ := List.mem_map.mp hmem2
  rw [← hme] at hp
  simp at hp

/-- Witness for `init_snap_pts_sequence`: a fresh 101 x 100 session, a
successful `init`, and two captured frames submitted with pts 1 and 2. -/
theorem init_snap_pts_sequence_witness :
    ∃ s0, Recorder.init guessEnv (Recorder.new "out.avi" 101 100) = Except.ok s0 ∧
      (∃ c stm, s0.context = some c ∧ s0.video_st = some stm ∧
        stm.time_base = c.time_base) ∧
      (∃ fr0, s0.frame = some fr0 ∧ fr0.pts = 0) ∧
      ∃ sf traces, Recorder.snapSeq [readyEnv, nullScaleEnv] s0 = Except.ok (sf, traces) ∧
        traces.map submittedPts =
          (List.range ([readyEnv, nullScaleEnv] : List SnapEnv).length).map
            (fun m => [m + 1]) ∧
        ∀ tr ∈ traces, RecAction.encodeFrame 0 ∉ tr :=
  init_snap_pts_sequence guessEnv (Recorder.new "out.avi" 101 100) 20
    [readyEnv, nullScaleEnv] rfl rfl (by decide) rfl (by decide)
    rfl rfl rfl rfl rfl rfl rfl rfl (by decide)
